import Mathlib

/-!
Verification of DETIKNewsScraper (src/DETIKScraper.py) against its
natural-language specification.

The Python source is shallowly embedded below.  Network I/O is made
explicit: every HTTP request is represented by its outcome (`HttpOutcome`:
either a timeout, or a response with a status code and a body), and the
HTML/JSON bodies are represented by their parsed structure, since the code
only ever observes a body through `selectolax.HTMLParser` CSS queries
(respectively through `response.json()`).  Python exceptions are embedded
as `Except PyErr`.  All definitions are computable so that concrete runs
evaluate by `rfl` / `decide`.
-/

/-- Python exceptions that the embedded code can raise. -/
inductive PyErr where
  | attributeError
  | keyError
  | typeError
  | jsonDecodeError
deriving DecidableEq, Repr

instance {ε α : Type} [DecidableEq ε] [DecidableEq α] : DecidableEq (Except ε α) := fun a b =>
  match a, b with
  | .ok x, .ok y => if h : x = y then isTrue (by rw [h]) else isFalse (by simp [h])
  | .error x, .error y => if h : x = y then isTrue (by rw [h]) else isFalse (by simp [h])
  | .ok _, .error _ => isFalse (by simp)
  | .error _, .ok _ => isFalse (by simp)

/-- One listing entry (an `<article>` node of a search-results page), seen
through the only queries `parse_item` performs on it:
`mediaTitle` is `css_first('h3.media__title')` (its text when the node
exists), `mediaDateSpan` is `css_first('.media__date > span')` (`none` when
the node is missing, `some a` when it exists with `a = attrs.get('title')`),
`anchor` is `css_first('a')` with its `href` attribute likewise, and
`mediaDesc` is `css_first('div.media__desc')` (its text when present). -/
structure Entry where
  mediaTitle : Option String
  mediaDateSpan : Option (Option String)
  anchor : Option (Option String)
  mediaDesc : Option String
deriving DecidableEq, Repr

/-- A response body together with its parse, seen through the only queries
the code performs: `textEmpty` records whether the raw text is the empty
string (Python truthiness of `html`), `articles` is `parser.css('article')`
in document order, and `bodyParagraphs` is the list of texts of
`parser.css('div.detail__body-text > p')` in document order. -/
structure Markup where
  textEmpty : Bool
  articles : List Entry
  bodyParagraphs : List String
deriving DecidableEq, Repr

/-- The record built and returned by `parse_item` (its field set is exactly
the dict literal at the end of `parse_item`). -/
structure Item where
  title : String
  url : String
  date : String
  desc : String
  content : String
deriving DecidableEq, Repr

/-- The outcome of one HTTP request: the server either never answers within
the timeout, or answers with a status code and a body of type `β`. -/
inductive HttpOutcome (β : Type) where
  | timeout
  | response (status : Nat) (body : β)
deriving DecidableEq, Repr

/-- What `client.get(...)` does with an `HttpOutcome`: either it returns a
response object (status + body), or it raises `httpx.TimeoutException`, or
it raises `httpx.HTTPStatusError`.  httpx raises `HTTPStatusError` only
from `Response.raise_for_status()`, which this code never calls, so
`client_get` below never produces `httpStatusExc`; the constructor exists
because `fetch_page` / `fetch_json` have an `except` clause for it. -/
inductive GetResult (β : Type) where
  | ok (status : Nat) (body : β)
  | timeoutExc
  | httpStatusExc (status : Nat)
deriving DecidableEq, Repr

/-- Semantics of `await client.get(url, params=..., headers=..., timeout=10.0)`:
a timeout raises `httpx.TimeoutException`; any completed response — whatever
its status code — is returned as a response object, because
`raise_for_status()` is never called. -/
def client_get {β : Type} : HttpOutcome β → GetResult β
  | .timeout => .timeoutExc
  | .response s b => .ok s b

/-- The `try/except` body of `fetch_page` (src lines 13-21): return
`response.text` on a response object, and `None` from both the
`httpx.TimeoutException` handler and the `httpx.HTTPStatusError` handler. -/
def fetch_page_handler {β : Type} : GetResult β → Option β
  | .ok _ b => some b
  | .timeoutExc => none
  | .httpStatusExc _ => none

/-- `fetch_page` (src lines 10-21): perform the GET and run the handler. -/
def fetch_page {β : Type} (o : HttpOutcome β) : Option β :=
  fetch_page_handler (client_get o)

/-- `selectolax.parser.HTMLParser(html)`: raises `TypeError` when `html` is
`None` (it requires `str` or `bytes`), otherwise yields the parsed markup. -/
def HTMLParser : Option Markup → Except PyErr Markup
  | none => .error .typeError
  | some m => .ok m

/-- `parse_content` (src lines 24-32).  The argument is the outcome of the
`fetch_page(url, {}, {})` call.  Note the `if not html` guard is commented
out in the source, so a `None` result flows into `HTMLParser`. -/
def parse_content (o : HttpOutcome Markup) : Except PyErr String :=
  match HTMLParser (fetch_page o) with
  | .error e => .error e
  | .ok parser =>
    let paragraphs := parser.bodyParagraphs
    if paragraphs.isEmpty then .ok "No content available."
    else .ok (String.intercalate "\n" paragraphs)

/-- `parse_item` (src lines 35-52).  `env` maps each article URL to the
outcome of fetching it.  `css_first` returning `None` makes the following
`.text()` / `.attrs` access raise `AttributeError`; a missing attribute in
`attrs[...]` raises `KeyError`.  Field access order follows the source:
title, date, url, desc, then the content fetch. -/
def parse_item (env : String → HttpOutcome Markup) (result : Entry) : Except PyErr Item :=
  match result.mediaTitle with
  | none => .error .attributeError
  | some title =>
    match result.mediaDateSpan with
    | none => .error .attributeError
    | some none => .error .keyError
    | some (some date) =>
      match result.anchor with
      | none => .error .attributeError
      | some none => .error .keyError
      | some (some url) =>
        let desc := match result.mediaDesc with
          | none => "No description"
          | some d => d
        match parse_content (env url) with
        | .error e => .error e
        | .ok content => .ok { title := title, url := url, date := date, desc := desc, content := content }

/-- `await asyncio.gather(*[f a for a in as])` with `return_exceptions` left
`False`: results are collected in argument order; if a task raises, the
exception propagates out of the `await`.  The deterministic embedding
propagates the first failing task in argument order. -/
def gatherE {α β : Type} (f : α → Except PyErr β) : List α → Except PyErr (List β)
  | [] => .ok []
  | a :: as =>
    match f a with
    | .error e => .error e
    | .ok b =>
      match gatherE f as with
      | .error e => .error e
      | .ok bs => .ok (b :: bs)

/-- `parse` (src lines 55-65).  The first argument is the outcome of the
listing-page fetch; `env` supplies the outcomes of the per-item article
fetches made inside `parse_item`.  `if not html: return []` fires when
`fetch_page` returned `None` or the body text is empty. -/
def parse (env : String → HttpOutcome Markup) (o : HttpOutcome Markup) :
    Except PyErr (List Item) :=
  match fetch_page o with
  | none => .ok []
  | some m =>
    if m.textEmpty then .ok []
    else gatherE (parse_item env) m.articles

/-- The page loop of `main` (src lines 136-140): for each page number in
order, `items = await parse(...)`, then `all_items.extend(items)`.  An
exception raised by `parse` propagates out of `main`. -/
def main_scrape (env : String → HttpOutcome Markup) (pageEnv : Nat → HttpOutcome Markup) :
    List Nat → Except PyErr (List Item)
  | [] => .ok []
  | p :: ps =>
    match parse env (pageEnv p) with
    | .error e => .error e
    | .ok items =>
      match main_scrape env pageEnv ps with
      | .error e => .error e
      | .ok rest => .ok (items ++ rest)

/-- The whole aggregation of `main` for `pages` pages:
`for page in range(1, pages + 1)` is the list `List.range' 1 pages`.
`pageEnv` maps each page number to the outcome of its listing-page fetch. -/
def collect_all_pages (pages : Nat) (pageEnv : Nat → HttpOutcome Markup)
    (env : String → HttpOutcome Markup) : Except PyErr (List Item) :=
  main_scrape env pageEnv (List.range' 1 pages)

/-- How many times `main` reports the no-data failure (`st.error("No data
scraped.")`, src line 161): once when `all_items` is empty, never otherwise. -/
def no_data_error_count (all_items : List Item) : Nat :=
  if all_items.isEmpty then 1 else 0

/-- Whether `main` builds a DataFrame and offers a download (src lines
142-157): exactly when `all_items` is non-empty. -/
def export_produced (all_items : List Item) : Bool :=
  !all_items.isEmpty

/-- A JSON value, for the trending-keywords endpoint. -/
inductive Json where
  | null
  | bool (b : Bool)
  | num (n : Int)
  | str (s : String)
  | arr (elems : List Json)
  | obj (fields : List (String × Json))

/-- Python truthiness of a JSON value (`not json_data`). -/
def Json.falsy : Json → Bool
  | .null => true
  | .bool b => !b
  | .num n => n == 0
  | .str s => s.isEmpty
  | .arr l => l.isEmpty
  | .obj l => l.isEmpty

/-- `b` starts with `a` (character lists). -/
def leadsWith : List Char → List Char → Bool
  | [], _ => true
  | _ :: _, [] => false
  | a :: as, b :: bs => (a == b) && leadsWith as bs

/-- `n` occurs as a contiguous run inside the second list. -/
def containsSeq (n : List Char) : List Char → Bool
  | [] => n.isEmpty
  | b :: bs => leadsWith n (b :: bs) || containsSeq n bs

/-- Python `k in j` on a JSON value: key membership for a dict, substring
test for a string, element equality for a list (a string key can only equal
a string element); `in` on `null`/`bool`/`num` raises `TypeError`. -/
def Json.member (k : String) : Json → Except PyErr Bool
  | .obj l => .ok (l.any fun p => p.1 == k)
  | .str s => .ok (containsSeq k.toList s.toList)
  | .arr l => .ok (l.any fun x => match x with | Json.str s => s == k | _ => false)
  | _ => .error .typeError

/-- Python `j[k]` with a string key: dict lookup (raising `KeyError` when
the key is absent); on anything else a string index raises `TypeError`. -/
def Json.getItem (k : String) : Json → Except PyErr Json
  | .obj l =>
    match l.find? (fun p => p.1 == k) with
    | some p => .ok p.2
    | none => .error .keyError
  | _ => .error .typeError

/-- Python iteration `for item in j`: a list yields its elements, a dict its
keys, a string its characters; anything else raises `TypeError`. -/
def Json.iter : Json → Except PyErr (List Json)
  | .arr l => .ok l
  | .obj l => .ok (l.map fun p => Json.str p.1)
  | .str s => .ok (s.toList.map fun c => Json.str (String.singleton c))
  | _ => .error .typeError

/-- `fetch_json` (src lines 68-79).  The body is `some j` when the response
text decodes as JSON and `none` when it does not, in which case
`response.json()` raises a decode error that no `except` clause catches. -/
def fetch_json (o : HttpOutcome (Option Json)) : Except PyErr (Option Json) :=
  match client_get o with
  | .ok _ (some j) => .ok (some j)
  | .ok _ none => .error .jsonDecodeError
  | .timeoutExc => .ok none
  | .httpStatusExc _ => .ok none

/-- `get_trending_keywords` (src lines 82-90).  The guard
`if not json_data or 'body' not in json_data or 'topKeywordSearch' not in
json_data['body']: return []` is evaluated left to right with Python
short-circuiting; then `[item['keyword'] for item in
json_data['body']['topKeywordSearch']]` is built in iteration order. -/
def get_trending_keywords (o : HttpOutcome (Option Json)) : Except PyErr (List Json) :=
  match fetch_json o with
  | .error e => .error e
  | .ok none => .ok []
  | .ok (some j) =>
    if j.falsy then .ok []
    else
      match j.member "body" with
      | .error e => .error e
      | .ok false => .ok []
      | .ok true =>
        match j.getItem "body" with
        | .error e => .error e
        | .ok body =>
          match body.member "topKeywordSearch" with
          | .error e => .error e
          | .ok false => .ok []
          | .ok true =>
            match j.getItem "body" with
            | .error e => .error e
            | .ok body2 =>
              match body2.getItem "topKeywordSearch" with
              | .error e => .error e
              | .ok top =>
                match top.iter with
                | .error e => .error e
                | .ok items => gatherE (fun it => Json.getItem "keyword" it) items

/-! ## Concrete fixtures used by the witnesses and counterexamples -/

/-- An article page whose content container holds two paragraphs. -/
def artM : Markup := { textEmpty := false, articles := [], bodyParagraphs := ["P1", "P2"] }

/-- An article page with no body paragraphs. -/
def emptyArt : Markup := { textEmpty := false, articles := [], bodyParagraphs := [] }

/-- An article-fetch environment in which every article URL answers 200
with `artM`. -/
def env0 : String → HttpOutcome Markup := fun _ => .response 200 artM

/-- An article-fetch environment in which every article fetch times out. -/
def envT : String → HttpOutcome Markup := fun _ => (.timeout : HttpOutcome Markup)

/-- A well-formed listing entry: every queried node and attribute present. -/
def goodEntry : Entry :=
  { mediaTitle := some "Title", mediaDateSpan := some (some "Date")
    anchor := some (some "http://art"), mediaDesc := some "Desc" }

/-- The item `parse_item` builds from `goodEntry` under `env0`. -/
def goodItem : Item :=
  { title := "Title", url := "http://art", date := "Date", desc := "Desc", content := "P1\nP2" }

/-- A listing entry whose `h3.media__title` node is missing. -/
def badEntry : Entry :=
  { mediaTitle := none, mediaDateSpan := some (some "Date")
    anchor := some (some "http://art"), mediaDesc := some "Desc" }

/-- `goodEntry` with the `div.media__desc` node missing. -/
def entryNoDesc : Entry :=
  { mediaTitle := some "Title", mediaDateSpan := some (some "Date")
    anchor := some (some "http://art"), mediaDesc := none }

/-- `goodEntry` with the `.media__date > span` node missing. -/
def entryNoDate : Entry :=
  { mediaTitle := some "Title", mediaDateSpan := none
    anchor := some (some "http://art"), mediaDesc := some "Desc" }

/-- A listing page with one well-formed entry. -/
def listing1 : Markup := { textEmpty := false, articles := [goodEntry], bodyParagraphs := [] }

/-- A listing page holding a well-formed entry followed by one missing its
title node. -/
def badListing : Markup :=
  { textEmpty := false, articles := [goodEntry, badEntry], bodyParagraphs := [] }

/-! ## Helper lemmas -/

theorem gatherE_ok_of_forall {α β : Type} (f : α → Except PyErr β) (g : α → β) :
    ∀ l : List α, (∀ a ∈ l, f a = .ok (g a)) → gatherE f l = .ok (l.map g) := by
  intro l
  induction l with
  | nil => intro _; rfl
  | cons a as ih =>
    intro h
    have ha : f a = .ok (g a) := h a (List.mem_cons_self a as)
    have has : gatherE f as = .ok (as.map g) := ih fun x hx => h x (List.mem_cons_of_mem a hx)
    simp [gatherE, ha, has]

theorem gatherE_error_of_mem {α β : Type} (f : α → Except PyErr β) (a : α) (err : PyErr) :
    ∀ l : List α, a ∈ l → f a = .error err → (gatherE f l).isOk = false := by
  intro l
  induction l with
  | nil => intro h; exact absurd h (List.not_mem_nil a)
  | cons b bs ih =>
    intro hmem herr
    rcases List.mem_cons.mp hmem with hb | hbs
    · subst hb; simp [gatherE, herr, Except.isOk, Except.toBool]
    · cases hf : f b with
      | error e => simp [gatherE, hf, Except.isOk, Except.toBool]
      | ok v =>
        have := ih hbs herr
        cases hg : gatherE f bs with
        | error e => simp [gatherE, hf, hg, Except.isOk, Except.toBool]
        | ok vs => rw [hg] at this; simp [Except.isOk, Except.toBool] at this

theorem parse_ok_of_entries (env : String → HttpOutcome Markup) (s : Nat) (m : Markup)
    (g : Entry → Item) (hne : m.textEmpty = false)
    (h : ∀ e ∈ m.articles, parse_item env e = .ok (g e)) :
    parse env (.response s m) = .ok (m.articles.map g) := by
  unfold parse fetch_page fetch_page_handler client_get
  simp [hne, gatherE_ok_of_forall (parse_item env) g m.articles h]

theorem main_scrape_ok (env : String → HttpOutcome Markup) (pageEnv : Nat → HttpOutcome Markup)
    (itemsOf : Nat → List Item) :
    ∀ ps : List Nat, (∀ p ∈ ps, parse env (pageEnv p) = .ok (itemsOf p)) →
      main_scrape env pageEnv ps = .ok ((ps.map itemsOf).flatten) := by
  intro ps
  induction ps with
  | nil => intro _; rfl
  | cons p ps ih =>
    intro h
    have hp : parse env (pageEnv p) = .ok (itemsOf p) := h p (List.mem_cons_self p ps)
    have hps : main_scrape env pageEnv ps = .ok ((ps.map itemsOf).flatten) :=
      ih fun x hx => h x (List.mem_cons_of_mem p hx)
    simp [main_scrape, hp, hps]

/-! ## Claim theorems -/

/-- Claim C1: for every requested page range `[1, pages]` and every
assignment of per-page listing markups whose entries all parse, the dataset
assembled by the page loop of `main` is the concatenation of the per-page
item lists in ascending page-number order, each page's items in document
order. -/
theorem c1_dataset_page_and_document_order
    (env : String → HttpOutcome Markup) (pageEnv : Nat → HttpOutcome Markup)
    (pages : Nat) (stOf : Nat → Nat) (mOf : Nat → Markup) (g : Entry → Item)
    (hresp : ∀ p ∈ List.range' 1 pages, pageEnv p = HttpOutcome.response (stOf p) (mOf p))
    (hne : ∀ p ∈ List.range' 1 pages, (mOf p).textEmpty = false)
    (hitems : ∀ p ∈ List.range' 1 pages, ∀ e ∈ (mOf p).articles,
      parse_item env e = Except.ok (g e)) :
    collect_all_pages pages pageEnv env =
      Except.ok (((List.range' 1 pages).map fun p => (mOf p).articles.map g).flatten) := by
  unfold collect_all_pages
  apply main_scrape_ok env pageEnv (fun p => (mOf p).articles.map g)
  intro p hp
  rw [hresp p hp]
  exact parse_ok_of_entries env (stOf p) (mOf p) g (hne p hp) (hitems p hp)

/-- Witness for C1: two pages, each answering 200 with `listing1`, every
article fetch answering 200 with `artM`; the dataset is page 1's item then
page 2's item. -/
theorem c1_dataset_page_and_document_order_witness :
    collect_all_pages 2 (fun _ => HttpOutcome.response 200 listing1) env0 =
      Except.ok [goodItem, goodItem] := by
  have h := c1_dataset_page_and_document_order env0 (fun _ => HttpOutcome.response 200 listing1)
    2 (fun _ => 200) (fun _ => listing1) (fun _ => goodItem)
    (by decide) (by decide) (by decide)
  exact h.trans (by decide)

/-- Counterexample to C2 as stated: on a listing whose second entry is
missing its title node, `parse` does not return the remaining entries — the
`AttributeError` raised inside `parse_item` propagates through
`asyncio.gather` and the whole page's parse fails. -/
theorem c2_counterexample :
    parse env0 (HttpOutcome.response 200 badListing) = Except.error PyErr.attributeError := rfl

/-- Claim C2 as amended: an entry whose title node or anchor node is absent
makes `parse_item` raise (it is not skipped), and a listing page containing
such an entry makes the whole `parse` call fail rather than return the
remaining entries. -/
theorem c2_amended_missing_required_raises (env : String → HttpOutcome Markup)
    (entry : Entry) (s : Nat) (m : Markup)
    (hbad : entry.mediaTitle = none ∨ entry.anchor = none)
    (hmem : entry ∈ m.articles) (hne : m.textEmpty = false) :
    (parse_item env entry).isOk = false ∧
    (parse env (HttpOutcome.response s m)).isOk = false := by
  have hitem : (parse_item env entry).isOk = false := by
    rcases hbad with h | h
    · simp [parse_item, h, Except.isOk, Except.toBool]
    · unfold parse_item
      cases ht : entry.mediaTitle with
      | none => simp [Except.isOk, Except.toBool]
      | some t =>
        cases hd : entry.mediaDateSpan with
        | none => simp [Except.isOk, Except.toBool]
        | some a =>
          cases a with
          | none => simp [Except.isOk, Except.toBool]
          | some d => simp [h, Except.isOk, Except.toBool]
  refine ⟨hitem, ?_⟩
  cases hpi : parse_item env entry with
  | ok v => rw [hpi] at hitem; simp [Except.isOk, Except.toBool] at hitem
  | error e =>
    unfold parse fetch_page fetch_page_handler client_get
    simp only [hne, Bool.false_eq_true, if_false]
    exact gatherE_error_of_mem (parse_item env) entry e m.articles hmem hpi

/-- Witness for the amended C2 at `badEntry` inside `badListing`. -/
theorem c2_amended_missing_required_raises_witness :
    (parse_item env0 badEntry).isOk = false ∧
    (parse env0 (HttpOutcome.response 200 badListing)).isOk = false :=
  c2_amended_missing_required_raises env0 badEntry 200 badListing (Or.inl rfl) (by decide) rfl

/-- Counterexample to C3 as stated: the sentinel the code returns is
`"No content available."` — with a trailing period — not the literal
`"No content available"` the claim names. -/
theorem c3_counterexample :
    parse_content (HttpOutcome.response 200 emptyArt) = Except.ok "No content available." ∧
    ("No content available." : String) ≠ "No content available" := ⟨rfl, by decide⟩

/-- Claim C3 as amended: on markup with zero body paragraphs `parse_content`
returns the sentinel `"No content available."` (not the empty string), and
on markup with at least one paragraph it returns the paragraph texts joined
by newlines in document order. -/
theorem c3_sentinel_and_newline_join (s1 s2 : Nat) (m1 m2 : Markup)
    (h1 : m1.bodyParagraphs = []) (h2 : m2.bodyParagraphs ≠ []) :
    parse_content (HttpOutcome.response s1 m1) = Except.ok "No content available." ∧
    parse_content (HttpOutcome.response s2 m2) =
      Except.ok (String.intercalate "\n" m2.bodyParagraphs) := by
  have hf : m2.bodyParagraphs.isEmpty = false := by
    cases hm : m2.bodyParagraphs with
    | nil => exact absurd hm h2
    | cons a as => rfl
  constructor
  · simp [parse_content, HTMLParser, fetch_page, fetch_page_handler, client_get, h1]
  · simp [parse_content, HTMLParser, fetch_page, fetch_page_handler, client_get, hf]

/-- Witness for the amended C3 at `emptyArt` and `artM`. -/
theorem c3_sentinel_and_newline_join_witness :
    parse_content (HttpOutcome.response 200 emptyArt) = Except.ok "No content available." ∧
    parse_content (HttpOutcome.response 200 artM) =
      Except.ok (String.intercalate "\n" artM.bodyParagraphs) :=
  c3_sentinel_and_newline_join 200 200 emptyArt artM rfl (by decide)

/-- Claim C4 (code bug): when an item's article fetch times out,
`fetch_page` returns `None`, `HTMLParser(None)` raises `TypeError`, and the
exception propagates through `asyncio.gather`, aborting the whole page —
the item is not returned with the sentinel content.  The second conjunct
runs a full page (`listing1` with one well-formed entry) whose article
fetch times out. -/
theorem c4_enrichment_failure_aborts_page :
    parse_content (HttpOutcome.timeout : HttpOutcome Markup) = Except.error PyErr.typeError ∧
    parse envT (HttpOutcome.response 200 listing1) = Except.error PyErr.typeError := ⟨rfl, rfl⟩

/-- Counterexample to C5 as stated: a 404 response does not yield an
HttpError-style failure — `fetch_page` returns the response body as a
success value. -/
theorem c5_counterexample :
    fetch_page (HttpOutcome.response 404 artM) = some artM ∧
    fetch_page (HttpOutcome.response 404 artM) ≠ none := ⟨rfl, by decide⟩

/-- Claim C5 as amended: for every status code, including non-2xx ones,
`fetch_page` returns the response body as a success value; the
`httpx.HTTPStatusError` handler is dead code because `raise_for_status()`
is never called. -/
theorem c5_amended_body_returned_for_any_status (s : Nat) (b : Markup) :
    fetch_page (HttpOutcome.response s b) = some b := rfl

/-- Counterexample to C6 as stated: a listing fetch answered with HTTP
status 500 is not treated as a failure — its body is parsed normally, so a
500 response whose body contains a well-formed entry yields a non-empty
item list instead of the empty sequence. -/
theorem c6_counterexample :
    parse env0 (HttpOutcome.response 500 listing1) = Except.ok [goodItem] ∧
    ([goodItem] : List Item) ≠ [] := ⟨rfl, by decide⟩

/-- Claim C6 as amended: a page whose listing fetch times out (the only
fetch failure `fetch_page` reports) contributes the empty sequence without
raising, and the aggregator still returns every other page's items in
order; an HTTP error status is not a fetch failure in this code. -/
theorem c6_amended_timeout_yields_empty (env : String → HttpOutcome Markup)
    (pageEnv : Nat → HttpOutcome Markup) (pages : Nat) (itemsOf : Nat → List Item)
    (h : ∀ p ∈ List.range' 1 pages,
      (pageEnv p = HttpOutcome.timeout ∧ itemsOf p = []) ∨
      parse env (pageEnv p) = Except.ok (itemsOf p)) :
    collect_all_pages pages pageEnv env =
      Except.ok (((List.range' 1 pages).map itemsOf).flatten) := by
  unfold collect_all_pages
  apply main_scrape_ok
  intro p hp
  rcases h p hp with ⟨ht, hi⟩ | hok
  · rw [ht, hi]; rfl
  · exact hok

/-- Witness for the amended C6: three pages, page 2 timing out; the dataset
is page 1's item followed by page 3's item. -/
theorem c6_amended_timeout_yields_empty_witness :
    collect_all_pages 3
      (fun p => if p = 2 then HttpOutcome.timeout else HttpOutcome.response 200 listing1)
      env0 = Except.ok [goodItem, goodItem] := by
  have h := c6_amended_timeout_yields_empty env0
    (fun p => if p = 2 then HttpOutcome.timeout else HttpOutcome.response 200 listing1)
    3 (fun p => if p = 2 then [] else [goodItem]) (by decide)
  exact h.trans (by decide)

/-- Counterexample to C7 as stated: the record `parse_item` builds has no
`category` field at all (its fields are title, url, date, desc, content),
and a missing description node defaults to `"No description"`, not the
empty string; a missing date node raises instead of defaulting. -/
theorem c7_counterexample :
    parse_item env0 entryNoDesc =
      Except.ok { title := "Title", url := "http://art", date := "Date"
                  desc := "No description", content := "P1\nP2" } ∧
    ("No description" : String) ≠ "" ∧
    parse_item env0 entryNoDate = Except.error PyErr.attributeError := ⟨rfl, by decide, rfl⟩

/-- Claim C7 as amended: every item `parse_item` returns has exactly the
fields {title, url, date, desc, content} — there is no category field; a
missing description node yields the default `"No description"` rather than
the empty string; and a missing date node raises `AttributeError` rather
than defaulting. -/
theorem c7_amended_fields_and_defaults (env : String → HttpOutcome Markup)
    (entry entry2 : Entry) (t d u c t2 : String)
    (ht : entry.mediaTitle = some t) (hd : entry.mediaDateSpan = some (some d))
    (hu : entry.anchor = some (some u)) (hdesc : entry.mediaDesc = none)
    (hc : parse_content (env u) = Except.ok c)
    (ht2 : entry2.mediaTitle = some t2) (hd2 : entry2.mediaDateSpan = none) :
    parse_item env entry =
      Except.ok { title := t, url := u, date := d, desc := "No description", content := c } ∧
    parse_item env entry2 = Except.error PyErr.attributeError := by
  constructor
  · simp [parse_item, ht, hd, hu, hdesc, hc]
  · simp [parse_item, ht2, hd2]

/-- Witness for the amended C7 at `entryNoDesc` and `entryNoDate`. -/
theorem c7_amended_fields_and_defaults_witness :
    parse_item env0 entryNoDesc =
      Except.ok { title := "Title", url := "http://art", date := "Date"
                  desc := "No description", content := "P1\nP2" } ∧
    parse_item env0 entryNoDate = Except.error PyErr.attributeError :=
  c7_amended_fields_and_defaults env0 entryNoDesc entryNoDate
    "Title" "Date" "http://art" "P1\nP2" "Title" rfl rfl rfl rfl rfl rfl rfl

/-- Claim C8: when every page's fetch fails (times out), the aggregation
yields the empty dataset, `main` reports the no-data failure exactly once,
and no export is produced. -/
theorem c8_all_pages_fail_no_data (pages : Nat) (pageEnv : Nat → HttpOutcome Markup)
    (env : String → HttpOutcome Markup)
    (hfail : ∀ p, pageEnv p = HttpOutcome.timeout) :
    collect_all_pages pages pageEnv env = Except.ok [] ∧
    no_data_error_count [] = 1 ∧ export_produced [] = false := by
  refine ⟨?_, rfl, rfl⟩
  unfold collect_all_pages
  have h := main_scrape_ok env pageEnv (fun _ => []) (List.range' 1 pages)
    (fun p _ => by rw [hfail p]; rfl)
  rw [h]
  simp

/-- Witness for C8: three pages, every fetch timing out. -/
theorem c8_all_pages_fail_no_data_witness :
    collect_all_pages 3 (fun _ => HttpOutcome.timeout) envT = Except.ok [] ∧
    no_data_error_count [] = 1 ∧ export_produced [] = false :=
  c8_all_pages_fail_no_data 3 (fun _ => HttpOutcome.timeout) envT (fun _ => rfl)

/-- Claim C9: the `try/except` body of `fetch_page` maps a raised
`TimeoutException` and a raised `HTTPStatusError` to the same return value
`None` — neither exception escapes to the caller, and a caller cannot tell
the two apart from the result. -/
theorem c9_timeout_and_http_error_conflated (s : Nat) :
    fetch_page_handler (GetResult.timeoutExc : GetResult Markup) = none ∧
    fetch_page_handler (GetResult.httpStatusExc s : GetResult Markup) = none ∧
    fetch_page_handler (GetResult.timeoutExc : GetResult Markup) =
      fetch_page_handler (GetResult.httpStatusExc s : GetResult Markup) := ⟨rfl, rfl, rfl⟩

/-- Counterexample to C10 as stated: when the JSON object's `body` value is
not a container (here the number 5), the object lacks the
`body.topKeywordSearch` key, yet `get_trending_keywords` does not return
the empty list — the membership test `'topKeywordSearch' not in
json_data['body']` raises `TypeError`. -/
theorem c10_counterexample :
    get_trending_keywords
      (HttpOutcome.response 200 (some (Json.obj [("body", Json.num 5)]))) =
      Except.error PyErr.typeError := rfl

/-- Claim C10 as amended: `get_trending_keywords` returns the empty list
when the fetch fails, when the decoded JSON object lacks a `body` key, and
when its `body` value is an object lacking a `topKeywordSearch` key; when
`body.topKeywordSearch` exists and is a list, it returns the `keyword`
entry of each element in order (raising `KeyError` on an element without
one); a non-container `body` value makes the membership test raise
`TypeError` instead of returning the empty list. -/
theorem c10_amended_trending_keywords (s : Nat)
    (fields2 fields3 fields4 bf3 bf4 : List (String × Json)) (l : List Json)
    (hf2 : Json.falsy (Json.obj fields2) = false)
    (hnb : Json.member "body" (Json.obj fields2) = Except.ok false)
    (hf3 : Json.falsy (Json.obj fields3) = false)
    (hb3 : Json.member "body" (Json.obj fields3) = Except.ok true)
    (hg3 : Json.getItem "body" (Json.obj fields3) = Except.ok (Json.obj bf3))
    (hnt : Json.member "topKeywordSearch" (Json.obj bf3) = Except.ok false)
    (hf4 : Json.falsy (Json.obj fields4) = false)
    (hb4 : Json.member "body" (Json.obj fields4) = Except.ok true)
    (hg4 : Json.getItem "body" (Json.obj fields4) = Except.ok (Json.obj bf4))
    (ht4 : Json.member "topKeywordSearch" (Json.obj bf4) = Except.ok true)
    (hgt4 : Json.getItem "topKeywordSearch" (Json.obj bf4) = Except.ok (Json.arr l)) :
    get_trending_keywords (HttpOutcome.timeout : HttpOutcome (Option Json)) = Except.ok [] ∧
    get_trending_keywords (HttpOutcome.response s (some (Json.obj fields2))) = Except.ok [] ∧
    get_trending_keywords (HttpOutcome.response s (some (Json.obj fields3))) = Except.ok [] ∧
    get_trending_keywords (HttpOutcome.response s (some (Json.obj fields4))) =
      gatherE (fun it => Json.getItem "keyword" it) l := by
  refine ⟨rfl, ?_, ?_, ?_⟩
  · simp [get_trending_keywords, fetch_json, client_get, hf2, hnb]
  · simp [get_trending_keywords, fetch_json, client_get, hf3, hb3, hg3, hnt]
  · simp [get_trending_keywords, fetch_json, client_get, hf4, hb4, hg4, ht4, hgt4, Json.iter]

/-- Witness for the amended C10 on three concrete JSON payloads. -/
theorem c10_amended_trending_keywords_witness :
    get_trending_keywords (HttpOutcome.timeout : HttpOutcome (Option Json)) = Except.ok [] ∧
    get_trending_keywords (HttpOutcome.response 200
      (some (Json.obj [("x", Json.null)]))) = Except.ok [] ∧
    get_trending_keywords (HttpOutcome.response 200
      (some (Json.obj [("body", Json.obj [("y", Json.null)])]))) = Except.ok [] ∧
    get_trending_keywords (HttpOutcome.response 200
      (some (Json.obj [("body", Json.obj [("topKeywordSearch",
        Json.arr [Json.obj [("keyword", Json.str "k1")],
                  Json.obj [("keyword", Json.str "k2")]])])]))) =
      gatherE (fun it => Json.getItem "keyword" it)
        [Json.obj [("keyword", Json.str "k1")], Json.obj [("keyword", Json.str "k2")]] :=
  c10_amended_trending_keywords 200
    [("x", Json.null)]
    [("body", Json.obj [("y", Json.null)])]
    [("body", Json.obj [("topKeywordSearch",
      Json.arr [Json.obj [("keyword", Json.str "k1")],
                Json.obj [("keyword", Json.str "k2")]])])]
    [("y", Json.null)]
    [("topKeywordSearch",
      Json.arr [Json.obj [("keyword", Json.str "k1")],
                Json.obj [("keyword", Json.str "k2")]])]
    [Json.obj [("keyword", Json.str "k1")], Json.obj [("keyword", Json.str "k2")]]
    rfl rfl rfl rfl rfl rfl rfl rfl rfl rfl rfl
